import Mathlib

/-!
Verification development for the place-enrichment cache of the
myndy-location repository (file `core/analysis/enrichment.py`).

The embedding is a faithful shallow translation of the Python source:

* Coordinates, distances and wall-clock times are modelled as exact
  rationals (the source uses binary floats; no claim depends on float
  rounding).  Because the library addition and multiplication on `ℚ` are
  marked irreducible, the definitions below use computable wrappers
  (`qadd`, `qsub`, `qmul`, `qneg`) built from `mkRat`; bridge lemmas prove
  them equal to the standard operations, so theorems are stated and proved
  over ordinary rational arithmetic while concrete witnesses still evaluate
  inside the kernel.

* External collaborators are parameters: the geodesic distance function of
  geopy and the Python `float` constructor are fields of `GeoCtx`; the
  geocoder itself is an oracle value of type `GeoOutcome` passed to one call
  of `enrich_place`, together with the current wall-clock reading and the
  duration of the external call.

* One call of `PlaceEnricher.enrich_place` is the pure function
  `enrich_place`; its `EnrichResult` records the returned value, the updated
  in-memory cache and limiter timestamp, and the observable effects of the
  call (whether the geocoder was invoked, whether `save_cache` ran, how long
  the rate limiter slept, and when the external call was issued).

* The JSON cache file is modelled as a `Json` tree; `json.dump`/`json.load`
  are the faithful transport of such trees and are not re-modelled.
-/

/-! ## Computable rational arithmetic

The Batteries definitions of `Rat.add`, `Rat.sub`, `Rat.mul` and `Rat.neg`
are `@[irreducible]`, which blocks kernel evaluation of concrete witnesses.
The wrappers below compute with `mkRat` (which does reduce) and are proved
equal to the standard operations. -/

def qneg (a : ℚ) : ℚ := mkRat (-a.num) a.den

def qadd (a b : ℚ) : ℚ := mkRat (a.num * b.den + b.num * a.den) (a.den * b.den)

def qsub (a b : ℚ) : ℚ := qadd a (qneg b)

def qmul (a b : ℚ) : ℚ := mkRat (a.num * b.num) (a.den * b.den)

theorem qneg_eq (a : ℚ) : qneg a = -a := by
  rw [qneg, Rat.mkRat_eq_divInt, ← Rat.neg_def]

theorem qadd_eq (a b : ℚ) : qadd a b = a + b := by
  have ha : (a.den : ℤ) ≠ 0 := Int.natCast_ne_zero.mpr a.den_nz
  have hb : (b.den : ℤ) ≠ 0 := Int.natCast_ne_zero.mpr b.den_nz
  rw [qadd, Rat.mkRat_eq_divInt]
  push_cast
  rw [← Rat.divInt_add_divInt _ _ ha hb, Rat.num_divInt_den, Rat.num_divInt_den]

theorem qsub_eq (a b : ℚ) : qsub a b = a - b := by
  rw [qsub, qadd_eq, qneg_eq, sub_eq_add_neg]

theorem qmul_eq (a b : ℚ) : qmul a b = a * b := by
  rw [qmul, Rat.mkRat_eq_divInt]
  push_cast
  rw [← Rat.divInt_mul_divInt', Rat.num_divInt_den, Rat.num_divInt_den]

/-! ## String helpers

`splitChar` models the Python `str.split` with a one-character separator,
`strIsDigit` models `str.isdigit` (restricted to ASCII digits, the only kind
exercised by the source and spec). -/

def splitCharAux (sep : Char) : List Char → List Char → List String
  | [], acc => [String.mk acc.reverse]
  | c :: rest, acc =>
    if c = sep then String.mk acc.reverse :: splitCharAux sep rest []
    else splitCharAux sep rest (c :: acc)

def splitChar (sep : Char) (s : String) : List String :=
  splitCharAux sep s.data []

def strIsDigit (s : String) : Bool :=
  !s.data.isEmpty && s.data.all Char.isDigit

/-- Python `s.split(',')[0]`: `splitChar` never returns an empty list, and on
the empty string it returns `[""]`, so the head default is never used. -/
def firstCommaSegment (s : String) : String :=
  (splitChar ',' s).headD ""

/-! ## Data model -/

/-- Projection of the raw Nominatim response actually consumed by the source:
`raw.get('name')`, `raw.get('display_name')` and the loosely structured
`raw.get('address', {})` sub-mapping.  A `none` models both an absent key and
an explicit JSON null (the source treats the two identically through
`dict.get`). -/
structure RawLoc where
  name : Option String
  display_name : Option String
  address : List (String × String)
deriving DecidableEq

/-- A geopy `Location`: the formatted address string plus the raw payload. -/
structure Location where
  address : String
  raw : RawLoc
deriving DecidableEq

/-- The `PlaceEnrichment` dataclass: every field defaults to `None`. -/
structure PlaceEnrichment where
  name : Option String := none
  address : Option String := none
  city : Option String := none
  state : Option String := none
  country : Option String := none
  postal_code : Option String := none
  place_type : Option String := none
  raw_data : Option RawLoc := none
deriving DecidableEq

/-- Outcome of one `geocoder.reverse` call: an exception (timeout or
transport failure), a falsy no-result response, or a location. -/
inductive GeoOutcome where
  | raise
  | noResult
  | ok (loc : Location)
deriving DecidableEq

/-- External collaborators of the proximity matcher: geopy's geodesic
distance (in meters) and the Python `float` constructor used to decode a
cache key. -/
structure GeoCtx where
  dist : ℚ × ℚ → ℚ × ℚ → ℚ
  parseFloat : String → Option ℚ

/-- Constructor parameters of `PlaceEnricher`: the proximity reuse radius
(default 50 m) and the minimum interval between external calls (1 second). -/
structure EnrichConfig where
  cacheRadius : ℚ
  minRequestInterval : ℚ

/-- Mutable state of a `PlaceEnricher`: the in-memory cache (an insertion
ordered mapping, as a Python dict) and the rate limiter timestamp. -/
structure EnricherState where
  cache : List (String × PlaceEnrichment)
  lastRequestTime : ℚ
deriving DecidableEq

/-- Result of one `enrich_place` call: the returned optional record, the
state after the call, and the observable effects (whether `geocoder.reverse`
was invoked, whether `save_cache` ran, how long the limiter slept, and at
what time the external call was issued, when one was). -/
structure EnrichResult where
  result : Option PlaceEnrichment
  cache : List (String × PlaceEnrichment)
  lastRequestTime : ℚ
  geocoderCalled : Bool
  saved : Bool
  sleepTime : ℚ
  issueTime : Option ℚ
deriving DecidableEq

def EnrichResult.toState (r : EnrichResult) : EnricherState :=
  { cache := r.cache, lastRequestTime := r.lastRequestTime }

/-! ## Store operations -/

/-- Python dict assignment `cache[key] = value`: replace in place when the
key is present, append otherwise (insertion order is preserved, which the
proximity scan observes). -/
def putEntry : List (String × PlaceEnrichment) → String → PlaceEnrichment →
    List (String × PlaceEnrichment)
  | [], k, v => [(k, v)]
  | (k0, v0) :: rest, k, v =>
    if k0 = k then (k, v) :: rest else (k0, v0) :: putEntry rest k v

theorem lookup_putEntry (cache : List (String × PlaceEnrichment))
    (k : String) (v : PlaceEnrichment) : (putEntry cache k v).lookup k = some v := by
  induction cache with
  | nil => simp [putEntry, List.lookup]
  | cons kv rest ih =>
    obtain ⟨k0, v0⟩ := kv
    by_cases h : k0 = k
    · simp [putEntry, h, List.lookup]
    · simp only [putEntry, if_neg h, List.lookup]
      have : (k == k0) = false := by
        simp [beq_iff_eq]
        exact fun hk => h hk.symm
      simp [this, ih]

example : putEntry [("a", {}), ("b", {})] "b" { name := some "x" } =
    [("a", {}), ("b", { name := some "x" })] := by decide
example : putEntry [("a", {})] "c" { name := some "x" } =
    [("a", {}), ("c", { name := some "x" })] := by decide

/-! ## Proximity matcher (`PlaceEnricher._find_cached_nearby`) -/

/-- Decoding one cache key: `cache_lat, cache_lng = map(float, key.split(','))`.
Any failure (not exactly two comma-separated parts, or a part the float
constructor rejects) raises and is caught by the scan loop, modelled as
`none`. -/
def decodePoint (parseFloat : String → Option ℚ) (key : String) : Option (ℚ × ℚ) :=
  match splitChar ',' key with
  | [a, b] =>
    match parseFloat a, parseFloat b with
    | some x, some y => some (x, y)
    | _, _ => none
  | _ => none

/-- Translation of `_find_cached_nearby`: scan the cache in insertion order,
decode each key, and return the first record whose decoded coordinate lies
within `radius` meters of the query; keys that fail to decode are skipped. -/
def findCachedNearby (ctx : GeoCtx) (radius : ℚ)
    (cache : List (String × PlaceEnrichment)) (lat lon : ℚ) : Option PlaceEnrichment :=
  match cache with
  | [] => none
  | (key, enrichment) :: rest =>
    match decodePoint ctx.parseFloat key with
    | some p =>
      if ctx.dist (lat, lon) p ≤ radius then some enrichment
      else findCachedNearby ctx radius rest lat lon
    | none => findCachedNearby ctx radius rest lat lon

/-- Test used to phrase what `_find_cached_nearby` selects: the entry's key
decodes and the decoded point is within `radius` of the query. -/
def withinRadius (ctx : GeoCtx) (radius : ℚ) (lat lon : ℚ)
    (kv : String × PlaceEnrichment) : Bool :=
  match decodePoint ctx.parseFloat kv.1 with
  | some p => decide (ctx.dist (lat, lon) p ≤ radius)
  | none => false

/-! ## Coordinate quantizer (`PlaceEnricher._get_cache_key`) -/

def pad4 (n : ℕ) : String :=
  if n < 10 then "000" ++ Nat.repr n
  else if n < 100 then "00" ++ Nat.repr n
  else if n < 1000 then "0" ++ Nat.repr n
  else Nat.repr n

/-- Python `f"{x:.4f}"`: round to four fractional digits and render with a
fixed format.  Ties are rounded half-up here while CPython formatting of
binary doubles rounds half-to-even; no claim exercises a tie. -/
def formatFixed4 (x : ℚ) : String :=
  let n : ℤ := (qadd (qmul x (mkRat 10000 1)) (mkRat 1 2)).floor
  let sign := if n < 0 then "-" else ""
  let m := n.natAbs
  sign ++ Nat.repr (m / 10000) ++ "." ++ pad4 (m % 10000)

/-- Translation of `_get_cache_key`. -/
def getCacheKey (latitude longitude : ℚ) : String :=
  formatFixed4 latitude ++ "," ++ formatFixed4 longitude

example : getCacheKey (mkRat 370003 10000) (mkRat (-122) 1) = "37.0003,-122.0000" := by decide
example : getCacheKey (mkRat 1 1) (mkRat 2 1) = "1.0000,2.0000" := by decide

/-! ## Result parser and classifier -/

/-- Python `a or b` where `a` is `dict.get(...)` (a string or `None`) and `b`
a string: the left value is kept when it is truthy, i.e. present and
non-empty. -/
def pyOrS (a : Option String) (b : String) : String :=
  match a with
  | none => b
  | some s => if s.isEmpty then b else s

/-- Python `a or b` over two `dict.get` results: used for the city fallback
chain, whose last operand is itself an optional value. -/
def pyOrO (a b : Option String) : Option String :=
  match a with
  | none => b
  | some s => if s.isEmpty then b else some s

/-- Name extraction of `enrich_place` (lines 189-199 of the source): keep the
raw `name` field unless it is missing, empty or all digits; otherwise fall
through amenity, shop, building, tourism (Python `or` chain, so empty-string
values are skipped) and finally the first comma-separated segment of
`display_name`. -/
def extract_name (loc : Location) : String :=
  let place_name := loc.raw.name.getD ""
  if place_name.isEmpty || strIsDigit place_name then
    pyOrS (loc.raw.address.lookup "amenity")
      (pyOrS (loc.raw.address.lookup "shop")
        (pyOrS (loc.raw.address.lookup "building")
          (pyOrS (loc.raw.address.lookup "tourism")
            (firstCommaSegment (loc.raw.display_name.getD "")))))
  else place_name

/-- Translation of `_classify_place_type`: membership tests (`'amenity' in
address`) are presence tests, unlike the truthiness tests of the name
fallback. -/
def classify_place_type (address : List (String × String)) : String :=
  match address.lookup "amenity" with
  | some amenity => amenity
  | none =>
  match address.lookup "shop" with
  | some _ => "commercial"
  | none =>
  match address.lookup "building" with
  | some building =>
    if building = "house" || building = "residential" || building = "apartments" then
      "residence"
    else "building"
  | none =>
  match address.lookup "highway" with
  | some _ => "road"
  | none => "unknown"

/-- Construction of the `PlaceEnrichment` record from a geocoder location
(lines 201-210 of the source). -/
def parseLocation (loc : Location) : PlaceEnrichment :=
  let address := loc.raw.address
  { name := some (extract_name loc)
  , address := some loc.address
  , city := pyOrO (address.lookup "city") (pyOrO (address.lookup "town") (address.lookup "village"))
  , state := address.lookup "state"
  , country := address.lookup "country"
  , postal_code := address.lookup "postcode"
  , place_type := some (classify_place_type address)
  , raw_data := some loc.raw }

/-! ## Rate limiter and external call -/

/-- Sleep performed by the limiter block of `enrich_place`: the remaining
part of the minimum interval, or nothing when enough time has elapsed. -/
def sleepAt (cfg : EnrichConfig) (st : EnricherState) (now : ℚ) : ℚ :=
  if qsub now st.lastRequestTime < cfg.minRequestInterval then
    qsub cfg.minRequestInterval (qsub now st.lastRequestTime)
  else mkRat 0 1

/-- Wall-clock time at which `geocoder.reverse` is issued: the limiter check
happens at `now` and the call is issued right after the sleep. -/
def issueAt (cfg : EnrichConfig) (st : EnricherState) (now : ℚ) : ℚ :=
  qadd now (sleepAt cfg st now)

/-- The part of `enrich_place` from the rate limiter on (lines 169-221): gate
on the limiter, issue the external call, and handle the three outcomes.  The
call returns `dur` seconds after it is issued; `last_request_time` is set to
that return instant by the `time.time()` on line 180, which is skipped when
`geocoder.reverse` raises. -/
def geocodeStep (cfg : EnrichConfig) (st : EnricherState) (key : String)
    (now : ℚ) (geo : GeoOutcome) (dur : ℚ) : EnrichResult :=
  let sleep := sleepAt cfg st now
  let issue := issueAt cfg st now
  let callReturn := qadd issue dur
  match geo with
  | GeoOutcome.raise =>
    { result := none, cache := st.cache, lastRequestTime := st.lastRequestTime
    , geocoderCalled := true, saved := false, sleepTime := sleep, issueTime := some issue }
  | GeoOutcome.noResult =>
    { result := none, cache := st.cache, lastRequestTime := callReturn
    , geocoderCalled := true, saved := false, sleepTime := sleep, issueTime := some issue }
  | GeoOutcome.ok loc =>
    let enrichment := parseLocation loc
    { result := some enrichment, cache := putEntry st.cache key enrichment
    , lastRequestTime := callReturn
    , geocoderCalled := true, saved := true, sleepTime := sleep, issueTime := some issue }

/-! ## Orchestrator (`PlaceEnricher.enrich_place`) -/

/-- One call of `enrich_place`.  With `force` false the exact key lookup and
then the proximity scan may short-circuit; otherwise control falls through to
the rate limited external call. -/
def enrich_place (ctx : GeoCtx) (cfg : EnrichConfig) (st : EnricherState)
    (lat lon : ℚ) (force : Bool) (now : ℚ) (geo : GeoOutcome) (dur : ℚ) : EnrichResult :=
  let key := getCacheKey lat lon
  if force then geocodeStep cfg st key now geo dur
  else
    match st.cache.lookup key with
    | some cached =>
      { result := some cached, cache := st.cache, lastRequestTime := st.lastRequestTime
      , geocoderCalled := false, saved := false, sleepTime := mkRat 0 1, issueTime := none }
    | none =>
      match findCachedNearby ctx cfg.cacheRadius st.cache lat lon with
      | some nearby =>
        { result := some nearby, cache := putEntry st.cache key nearby
        , lastRequestTime := st.lastRequestTime
        , geocoderCalled := false, saved := false, sleepTime := mkRat 0 1, issueTime := none }
      | none => geocodeStep cfg st key now geo dur

/-! ## Cache persistence (`save_cache` / `load_cache`)

The persisted artifact is modelled as a JSON tree restricted to the shapes
this cache ever writes or reads back meaningfully: null, strings, and
objects.  `json.dump`/`json.load` transport such trees losslessly and are
not re-modelled; `load_cache` on a type-incorrect or otherwise rejected tree
raises inside the comprehension and falls back to the empty cache. -/

inductive Json where
  | null
  | str (s : String)
  | obj (fields : List (String × Json))

/-- Exception-propagating comprehension over a list, as in the dict
comprehensions of `load_cache` and `save_cache`: one failure fails the whole
traversal. -/
def seqMap (f : α → Option β) : List α → Option (List β)
  | [] => some []
  | a :: rest =>
    match f a with
    | none => none
    | some b => (seqMap f rest).map (fun bs => b :: bs)

def optStrToJson : Option String → Json
  | none => Json.null
  | some s => Json.str s

def jsonToOptStr : Json → Option (Option String)
  | Json.null => some none
  | Json.str s => some (some s)
  | _ => none

def rawLocToJson (r : RawLoc) : Json :=
  Json.obj
    [ ("name", optStrToJson r.name)
    , ("display_name", optStrToJson r.display_name)
    , ("address", Json.obj (r.address.map (fun kv => (kv.1, Json.str kv.2)))) ]

def jsonToAddressPair (kv : String × Json) : Option (String × String) :=
  match kv.2 with
  | Json.str s => some (kv.1, s)
  | _ => none

def jsonToRawLoc (j : Json) : Option RawLoc :=
  match j with
  | Json.obj fields => do
    let name ← jsonToOptStr ((fields.lookup "name").getD Json.null)
    let display_name ← jsonToOptStr ((fields.lookup "display_name").getD Json.null)
    let addrJson := (fields.lookup "address").getD (Json.obj [])
    match addrJson with
    | Json.obj addrFields => do
      let address ← seqMap jsonToAddressPair addrFields
      some { name := name, display_name := display_name, address := address }
    | _ => none
  | _ => none

/-- Decode of a persisted `raw_data` value: null loads as `None`, otherwise
the opaque payload tree is rebuilt. -/
def jsonToRawData (j : Json) : Option (Option RawLoc) :=
  match j with
  | Json.null => some none
  | rawJson => (jsonToRawLoc rawJson).map some

/-- Serialization of one record, as the explicit eight-key dict literal of
`save_cache` (lines 91-103 of the source). -/
def recordToJson (r : PlaceEnrichment) : Json :=
  Json.obj
    [ ("name", optStrToJson r.name)
    , ("address", optStrToJson r.address)
    , ("city", optStrToJson r.city)
    , ("state", optStrToJson r.state)
    , ("country", optStrToJson r.country)
    , ("postal_code", optStrToJson r.postal_code)
    , ("place_type", optStrToJson r.place_type)
    , ("raw_data", match r.raw_data with | none => Json.null | some raw => rawLocToJson raw) ]

def enrichmentFieldNames : List String :=
  ["name", "address", "city", "state", "country", "postal_code", "place_type", "raw_data"]

/-- Python `PlaceEnrichment(**value)` from `load_cache`: unknown keyword
arguments raise `TypeError` (failing the whole load), missing keys take the
dataclass default `None`.  Values must have the JSON shape of the matching
field; the dataclass performs no runtime type validation, so type-incorrect
values (which this cache never writes) are outside the model. -/
def loadRecord (j : Json) : Option PlaceEnrichment :=
  match j with
  | Json.obj fields =>
    if fields.all (fun kv => enrichmentFieldNames.contains kv.1) then do
      let name ← jsonToOptStr ((fields.lookup "name").getD Json.null)
      let address ← jsonToOptStr ((fields.lookup "address").getD Json.null)
      let city ← jsonToOptStr ((fields.lookup "city").getD Json.null)
      let state ← jsonToOptStr ((fields.lookup "state").getD Json.null)
      let country ← jsonToOptStr ((fields.lookup "country").getD Json.null)
      let postal_code ← jsonToOptStr ((fields.lookup "postal_code").getD Json.null)
      let place_type ← jsonToOptStr ((fields.lookup "place_type").getD Json.null)
      let raw_data ← jsonToRawData ((fields.lookup "raw_data").getD Json.null)
      some { name := name, address := address, city := city, state := state
           , country := country, postal_code := postal_code
           , place_type := place_type, raw_data := raw_data }
    else none
  | _ => none

/-- Serialization of the whole store (`save_cache`). -/
def saveStore (cache : List (String × PlaceEnrichment)) : Json :=
  Json.obj (cache.map (fun kv => (kv.1, recordToJson kv.2)))

/-- Strict part of `load_cache`: rebuild every record, propagating any
failure. -/
def loadStore (j : Json) : Option (List (String × PlaceEnrichment)) :=
  match j with
  | Json.obj entries => seqMap (fun kv => (loadRecord kv.2).map (fun r => (kv.1, r))) entries
  | _ => none

/-- Full `load_cache` behavior on present backing data: a tree the strict
loader rejects is the caught-exception path, which degrades to the empty
cache. -/
def loadCache (j : Json) : List (String × PlaceEnrichment) :=
  (loadStore j).getD []

/-! ## Helper lemmas -/

theorem mkRat_zero_one : mkRat 0 1 = 0 := by simp

/-- Whenever a call reports that the geocoder was invoked, the whole call is
the fall-through branch `geocodeStep` (the two cache-hit branches report
`geocoderCalled = false`). -/
theorem enrich_eq_geocodeStep (ctx : GeoCtx) (cfg : EnrichConfig) (st : EnricherState)
    (lat lon : ℚ) (force : Bool) (now : ℚ) (geo : GeoOutcome) (dur : ℚ)
    (h : (enrich_place ctx cfg st lat lon force now geo dur).geocoderCalled = true) :
    enrich_place ctx cfg st lat lon force now geo dur =
      geocodeStep cfg st (getCacheKey lat lon) now geo dur := by
  unfold enrich_place at h ⊢
  by_cases hf : force
  · simp [hf]
  · simp only [hf, Bool.false_eq_true, if_false] at h ⊢
    cases hl : List.lookup (getCacheKey lat lon) st.cache with
    | some cached => rw [hl] at h; simp at h
    | none =>
      rw [hl] at h
      cases hn : findCachedNearby ctx cfg.cacheRadius st.cache lat lon with
      | some nearby => rw [hn] at h; simp at h
      | none => rfl

theorem geocodeStep_issueTime (cfg : EnrichConfig) (st : EnricherState) (key : String)
    (now : ℚ) (geo : GeoOutcome) (dur : ℚ) :
    (geocodeStep cfg st key now geo dur).issueTime = some (issueAt cfg st now) := by
  cases geo <;> rfl

theorem geocodeStep_last_of_ne_raise (cfg : EnrichConfig) (st : EnricherState) (key : String)
    (now : ℚ) (geo : GeoOutcome) (dur : ℚ) (h : geo ≠ GeoOutcome.raise) :
    (geocodeStep cfg st key now geo dur).lastRequestTime = issueAt cfg st now + dur := by
  cases geo with
  | raise => exact absurd rfl h
  | noResult => simp [geocodeStep, qadd_eq]
  | ok loc => simp [geocodeStep, qadd_eq]

/-- The limiter gate never issues a call earlier than one minimum interval
after the recorded last-call timestamp. -/
theorem le_issueAt (cfg : EnrichConfig) (st : EnricherState) (now : ℚ) :
    st.lastRequestTime + cfg.minRequestInterval ≤ issueAt cfg st now := by
  unfold issueAt sleepAt
  split
  · rw [qadd_eq, qsub_eq, qsub_eq]
    linarith
  · rename_i h
    rw [qsub_eq] at h
    rw [qadd_eq, mkRat_zero_one]
    linarith [not_lt.mp h]

theorem pyOrS_eq (a : Option String) (b : String) :
    pyOrS a b = (a.bind (fun s => if s.isEmpty then none else some s)).getD b := by
  cases a with
  | none => rfl
  | some s =>
    by_cases h : s.isEmpty
    · simp [pyOrS, h]
    · simp [pyOrS, h]

theorem orElse_getD (x y : Option String) (d : String) :
    (x.orElse (fun _ => y)).getD d = x.getD (y.getD d) := by
  cases x <;> rfl

/-! ## Concrete external collaborators used by witnesses

These instantiate the `GeoCtx` parameters: a simple decimal parser for the
`float` constructor (covering the grammar the quantizer writes) and a flat
taxicab distance in meters.  They appear only in closed witnesses and
counterexamples; no general theorem depends on their particular values. -/

def digitsToNat (cs : List Char) : ℕ :=
  cs.foldl (fun n c => n * 10 + (c.toNat - 48)) 0

def parseUnsignedDecimal (s : String) : Option ℚ :=
  match splitChar '.' s with
  | [intPart] =>
    if !intPart.data.isEmpty && intPart.data.all Char.isDigit then
      some (mkRat (digitsToNat intPart.data) 1)
    else none
  | [intPart, fracPart] =>
    if !(intPart.data ++ fracPart.data).isEmpty &&
        (intPart.data ++ fracPart.data).all Char.isDigit then
      some (mkRat (digitsToNat intPart.data * 10 ^ fracPart.data.length +
                   digitsToNat fracPart.data) (10 ^ fracPart.data.length))
    else none
  | _ => none

def parseDecimal (s : String) : Option ℚ :=
  match s.data with
  | [] => none
  | c :: rest =>
    if c = '-' then (parseUnsignedDecimal (String.mk rest)).map qneg
    else parseUnsignedDecimal s

def qabs (a : ℚ) : ℚ := if a.num < 0 then qneg a else a

def taxicabMeters (p q : ℚ × ℚ) : ℚ :=
  qmul (mkRat 111320 1) (qadd (qabs (qsub p.1 q.1)) (qabs (qsub p.2 q.2)))

def ctx0 : GeoCtx := { dist := taxicabMeters, parseFloat := parseDecimal }

def cfg0 : EnrichConfig := { cacheRadius := mkRat 50 1, minRequestInterval := mkRat 1 1 }

def rec0 : PlaceEnrichment := { name := some "Blue Bottle", place_type := some "cafe" }

example : parseDecimal "-122.0000" = some (mkRat (-122) 1) := by decide
example : parseDecimal "x" = none := by decide
example : taxicabMeters (mkRat 370003 10000, mkRat (-122) 1) (mkRat 37 1, mkRat (-122) 1) =
    mkRat 33396 1000 := by decide

/-! ## Round-trip lemmas for the persistence format -/

theorem jsonToOptStr_optStrToJson (v : Option String) :
    jsonToOptStr (optStrToJson v) = some v := by
  cases v <;> rfl

theorem seqMap_addressToJson (addr : List (String × String)) :
    seqMap jsonToAddressPair (addr.map (fun kv => (kv.1, Json.str kv.2))) = some addr := by
  induction addr with
  | nil => rfl
  | cons kv rest ih =>
    obtain ⟨k, v⟩ := kv
    simp [seqMap, jsonToAddressPair, ih]

theorem jsonToRawLoc_rawLocToJson (r : RawLoc) :
    jsonToRawLoc (rawLocToJson r) = some r := by
  obtain ⟨n, d, a⟩ := r
  simp [rawLocToJson, jsonToRawLoc, List.lookup, jsonToOptStr_optStrToJson,
    seqMap_addressToJson]

theorem jsonToRawData_rawLocToJson (raw : RawLoc) :
    jsonToRawData (rawLocToJson raw) = some (some raw) := by
  have h := jsonToRawLoc_rawLocToJson raw
  rw [rawLocToJson] at h ⊢
  simp [jsonToRawData, h]

theorem loadRecord_recordToJson (r : PlaceEnrichment) :
    loadRecord (recordToJson r) = some r := by
  obtain ⟨n, a, c, s, co, pc, pt, rd⟩ := r
  cases rd with
  | none =>
    simp [recordToJson, loadRecord, enrichmentFieldNames, List.lookup,
      jsonToOptStr_optStrToJson, jsonToRawData]
  | some raw =>
    simp [recordToJson, loadRecord, enrichmentFieldNames, List.lookup,
      jsonToOptStr_optStrToJson, jsonToRawData_rawLocToJson]

/-- C8 helper: the strict loader inverts `save_cache` exactly. -/
theorem loadStore_saveStore (cache : List (String × PlaceEnrichment)) :
    loadStore (saveStore cache) = some cache := by
  simp only [saveStore, loadStore]
  induction cache with
  | nil => rfl
  | cons kv rest ih =>
    obtain ⟨k, r⟩ := kv
    simp [seqMap, loadRecord_recordToJson, ih]

/-! ## Claims -/

/-- C1: when `force` is false and the quantized key of the query coordinate
is present in the store, `enrich_place` returns exactly the stored record,
does not invoke the geocoder, does not interact with the rate limiter (no
sleep, timestamp unchanged, no call issued), and leaves the store unchanged
(no mutation, no persist). -/
theorem enrich_exact_hit (ctx : GeoCtx) (cfg : EnrichConfig) (st : EnricherState)
    (lat lon : ℚ) (now : ℚ) (geo : GeoOutcome) (dur : ℚ) (r : PlaceEnrichment)
    (h : st.cache.lookup (getCacheKey lat lon) = some r) :
    (enrich_place ctx cfg st lat lon false now geo dur).result = some r ∧
    (enrich_place ctx cfg st lat lon false now geo dur).geocoderCalled = false ∧
    (enrich_place ctx cfg st lat lon false now geo dur).sleepTime = 0 ∧
    (enrich_place ctx cfg st lat lon false now geo dur).issueTime = none ∧
    (enrich_place ctx cfg st lat lon false now geo dur).lastRequestTime = st.lastRequestTime ∧
    (enrich_place ctx cfg st lat lon false now geo dur).cache = st.cache ∧
    (enrich_place ctx cfg st lat lon false now geo dur).saved = false := by
  simp [enrich_place, h, mkRat_zero_one]

def storeHit : List (String × PlaceEnrichment) := [("1.0000,2.0000", rec0)]

/-- Witness for C1 at a concrete store and coordinate. -/
theorem enrich_exact_hit_witness :
    (EnricherState.mk storeHit 0).cache.lookup (getCacheKey (mkRat 1 1) (mkRat 2 1)) =
        some rec0 ∧
    (enrich_place ctx0 cfg0 (EnricherState.mk storeHit 0) (mkRat 1 1) (mkRat 2 1) false
        (mkRat 7 1) GeoOutcome.raise (mkRat 0 1)).result = some rec0 ∧
    (enrich_place ctx0 cfg0 (EnricherState.mk storeHit 0) (mkRat 1 1) (mkRat 2 1) false
        (mkRat 7 1) GeoOutcome.raise (mkRat 0 1)).geocoderCalled = false := by
  have h : (EnricherState.mk storeHit 0).cache.lookup (getCacheKey (mkRat 1 1) (mkRat 2 1)) =
      some rec0 := by decide
  have main := enrich_exact_hit ctx0 cfg0 (EnricherState.mk storeHit 0) (mkRat 1 1) (mkRat 2 1)
    (mkRat 7 1) GeoOutcome.raise (mkRat 0 1) rec0 h
  exact ⟨h, main.1, main.2.1⟩

def storeC : List (String × PlaceEnrichment) := [("37.0000,-122.0000", rec0)]

def qlatC : ℚ := mkRat 370003 10000

def qlonC : ℚ := mkRat (-122) 1

/-- C2 counterexample: with a record cached ~33 m away, a force-less call is
a proximity hit and returns the record, yet `saved = false`: the source
mutates the in-memory dict on this path (line 166) without calling
`save_cache`, so nothing is persisted before returning, contradicting the
claim that the store is persisted synchronously on a proximity hit. -/
theorem enrich_proximity_no_persist_cex :
    storeC.lookup (getCacheKey qlatC qlonC) = none ∧
    findCachedNearby ctx0 cfg0.cacheRadius storeC qlatC qlonC = some rec0 ∧
    (enrich_place ctx0 cfg0 (EnricherState.mk storeC 0) qlatC qlonC false
        (mkRat 0 1) GeoOutcome.raise (mkRat 0 1)).result = some rec0 ∧
    (enrich_place ctx0 cfg0 (EnricherState.mk storeC 0) qlatC qlonC false
        (mkRat 0 1) GeoOutcome.raise (mkRat 0 1)).saved = false := by
  refine ⟨by decide, by decide, by decide, by decide⟩

/-- C2 (amended): on a force-less exact miss with a proximity hit,
`enrich_place` stores the found record also under the query key, returns it,
and performs no external call — but does not persist the store before
returning (`save_cache` is not invoked on this path; persistence happens only
after a successful external geocoding). -/
theorem enrich_proximity_densify (ctx : GeoCtx) (cfg : EnrichConfig) (st : EnricherState)
    (lat lon : ℚ) (now : ℚ) (geo : GeoOutcome) (dur : ℚ) (r : PlaceEnrichment)
    (hmiss : st.cache.lookup (getCacheKey lat lon) = none)
    (hnear : findCachedNearby ctx cfg.cacheRadius st.cache lat lon = some r) :
    (enrich_place ctx cfg st lat lon false now geo dur).result = some r ∧
    (enrich_place ctx cfg st lat lon false now geo dur).cache =
      putEntry st.cache (getCacheKey lat lon) r ∧
    (enrich_place ctx cfg st lat lon false now geo dur).cache.lookup (getCacheKey lat lon) =
      some r ∧
    (enrich_place ctx cfg st lat lon false now geo dur).geocoderCalled = false ∧
    (enrich_place ctx cfg st lat lon false now geo dur).saved = false ∧
    (enrich_place ctx cfg st lat lon false now geo dur).lastRequestTime =
      st.lastRequestTime := by
  simp [enrich_place, hmiss, hnear, lookup_putEntry]

/-- Witness for the amended C2 at the concrete proximity-hit input. -/
theorem enrich_proximity_densify_witness :
    (enrich_place ctx0 cfg0 (EnricherState.mk storeC 0) qlatC qlonC false
        (mkRat 0 1) GeoOutcome.raise (mkRat 0 1)).result = some rec0 ∧
    (enrich_place ctx0 cfg0 (EnricherState.mk storeC 0) qlatC qlonC false
        (mkRat 0 1) GeoOutcome.raise (mkRat 0 1)).cache.lookup (getCacheKey qlatC qlonC) =
      some rec0 ∧
    (enrich_place ctx0 cfg0 (EnricherState.mk storeC 0) qlatC qlonC false
        (mkRat 0 1) GeoOutcome.raise (mkRat 0 1)).geocoderCalled = false := by
  have main := enrich_proximity_densify ctx0 cfg0 (EnricherState.mk storeC 0) qlatC qlonC
    (mkRat 0 1) GeoOutcome.raise (mkRat 0 1) rec0 (by decide) (by decide)
  exact ⟨main.1, main.2.2.1, main.2.2.2.1⟩

/-- C3: whenever a call reaches the external geocoding step and the geocoder
raises or returns no result, `enrich_place` returns null, the in-memory store
is unchanged (no entry for the queried key beyond what was there, which on
this path was nothing), and nothing is persisted. -/
theorem enrich_failure_not_cached (ctx : GeoCtx) (cfg : EnrichConfig) (st : EnricherState)
    (lat lon : ℚ) (force : Bool) (now : ℚ) (geo : GeoOutcome) (dur : ℚ)
    (hcall : (enrich_place ctx cfg st lat lon force now geo dur).geocoderCalled = true)
    (hfail : geo = GeoOutcome.raise ∨ geo = GeoOutcome.noResult) :
    (enrich_place ctx cfg st lat lon force now geo dur).result = none ∧
    (enrich_place ctx cfg st lat lon force now geo dur).cache = st.cache ∧
    (enrich_place ctx cfg st lat lon force now geo dur).saved = false := by
  rw [enrich_eq_geocodeStep ctx cfg st lat lon force now geo dur hcall]
  rcases hfail with h | h <;> subst h <;> simp [geocodeStep]

/-- Witness for C3: an empty cache forces the geocoding step; a no-result
response leaves everything untouched. -/
theorem enrich_failure_not_cached_witness :
    (enrich_place ctx0 cfg0 (EnricherState.mk [] 0) (mkRat 1 1) (mkRat 2 1) false
        (mkRat 9 1) GeoOutcome.noResult (mkRat 0 1)).result = none ∧
    (enrich_place ctx0 cfg0 (EnricherState.mk [] 0) (mkRat 1 1) (mkRat 2 1) false
        (mkRat 9 1) GeoOutcome.noResult (mkRat 0 1)).cache = [] ∧
    (enrich_place ctx0 cfg0 (EnricherState.mk [] 0) (mkRat 1 1) (mkRat 2 1) false
        (mkRat 9 1) GeoOutcome.noResult (mkRat 0 1)).saved = false :=
  enrich_failure_not_cached ctx0 cfg0 (EnricherState.mk [] 0) (mkRat 1 1) (mkRat 2 1) false
    (mkRat 9 1) GeoOutcome.noResult (mkRat 0 1) (by decide) (Or.inr rfl)

def stBurst : EnricherState := EnricherState.mk [] 0

/-- C4 counterexample: when the first geocoder call raises, line 180 of the
source is skipped and the limiter timestamp keeps its old value, so a second
call issued immediately afterwards is not delayed: both calls issue at time
100, violating the claimed minimum separation of one second even though the
first call reached the geocoding step and failed. -/
theorem enrich_rate_limit_burst_cex :
    (enrich_place ctx0 cfg0 stBurst (mkRat 1 1) (mkRat 2 1) true (mkRat 100 1)
        GeoOutcome.raise (mkRat 0 1)).geocoderCalled = true ∧
    (enrich_place ctx0 cfg0 (enrich_place ctx0 cfg0 stBurst (mkRat 1 1) (mkRat 2 1) true
        (mkRat 100 1) GeoOutcome.raise (mkRat 0 1)).toState (mkRat 1 1) (mkRat 2 1) true
        (mkRat 100 1) GeoOutcome.raise (mkRat 0 1)).geocoderCalled = true ∧
    (enrich_place ctx0 cfg0 stBurst (mkRat 1 1) (mkRat 2 1) true (mkRat 100 1)
        GeoOutcome.raise (mkRat 0 1)).issueTime = some (mkRat 100 1) ∧
    (enrich_place ctx0 cfg0 (enrich_place ctx0 cfg0 stBurst (mkRat 1 1) (mkRat 2 1) true
        (mkRat 100 1) GeoOutcome.raise (mkRat 0 1)).toState (mkRat 1 1) (mkRat 2 1) true
        (mkRat 100 1) GeoOutcome.raise (mkRat 0 1)).issueTime = some (mkRat 100 1) ∧
    ¬ (mkRat 100 1 + cfg0.minRequestInterval ≤ mkRat 100 1) := by
  refine ⟨by decide, by decide, by decide, by decide, ?_⟩
  norm_num [cfg0, Rat.mkRat_one]

/-- C4 (amended): for two consecutive calls that both reach the geocoding
step, if the first call's geocoder returned without raising (success or
empty result) and took a nonnegative time, then the second external call is
issued at least the minimum interval after the first was issued.  When the
first call raises, the limiter timestamp is left stale and no separation is
guaranteed (see the counterexample). -/
theorem enrich_rate_limit_separation (ctx : GeoCtx) (cfg : EnrichConfig) (st : EnricherState)
    (lat1 lon1 : ℚ) (force1 : Bool) (now1 : ℚ) (geo1 : GeoOutcome) (dur1 : ℚ)
    (lat2 lon2 : ℚ) (force2 : Bool) (now2 : ℚ) (geo2 : GeoOutcome) (dur2 : ℚ)
    (t1 t2 : ℚ)
    (hdur : 0 ≤ dur1)
    (h1 : (enrich_place ctx cfg st lat1 lon1 force1 now1 geo1 dur1).geocoderCalled = true)
    (hgeo1 : geo1 ≠ GeoOutcome.raise)
    (h2 : (enrich_place ctx cfg
        (enrich_place ctx cfg st lat1 lon1 force1 now1 geo1 dur1).toState
        lat2 lon2 force2 now2 geo2 dur2).geocoderCalled = true)
    (ht1 : (enrich_place ctx cfg st lat1 lon1 force1 now1 geo1 dur1).issueTime = some t1)
    (ht2 : (enrich_place ctx cfg
        (enrich_place ctx cfg st lat1 lon1 force1 now1 geo1 dur1).toState
        lat2 lon2 force2 now2 geo2 dur2).issueTime = some t2) :
    t1 + cfg.minRequestInterval ≤ t2 := by
  rw [enrich_eq_geocodeStep ctx cfg st lat1 lon1 force1 now1 geo1 dur1 h1] at ht1 h2 ht2
  rw [enrich_eq_geocodeStep ctx cfg _ lat2 lon2 force2 now2 geo2 dur2 h2] at ht2
  rw [geocodeStep_issueTime] at ht1 ht2
  have et1 : t1 = issueAt cfg st now1 := (Option.some.injEq _ _).mp ht1.symm
  have et2 : t2 = issueAt cfg
      (geocodeStep cfg st (getCacheKey lat1 lon1) now1 geo1 dur1).toState now2 :=
    (Option.some.injEq _ _).mp ht2.symm
  have hlast : (geocodeStep cfg st (getCacheKey lat1 lon1) now1 geo1 dur1).toState.lastRequestTime =
      issueAt cfg st now1 + dur1 :=
    geocodeStep_last_of_ne_raise cfg st (getCacheKey lat1 lon1) now1 geo1 dur1 hgeo1
  have hsep := le_issueAt cfg
    (geocodeStep cfg st (getCacheKey lat1 lon1) now1 geo1 dur1).toState now2
  rw [hlast] at hsep
  rw [et1, et2]
  linarith

/-- Witness for the amended C4: a no-result first call at time 5 with the
limiter idle issues at 5; an immediate second call is delayed to 6. -/
theorem enrich_rate_limit_separation_witness :
    mkRat 5 1 + cfg0.minRequestInterval ≤ mkRat 6 1 :=
  enrich_rate_limit_separation ctx0 cfg0 stBurst (mkRat 1 1) (mkRat 2 1) true (mkRat 5 1)
    GeoOutcome.noResult (mkRat 0 1) (mkRat 1 1) (mkRat 2 1) true (mkRat 5 1)
    GeoOutcome.noResult (mkRat 0 1) (mkRat 5 1) (mkRat 6 1)
    (by decide) (by decide) (by intro h; cases h) (by decide) (by decide) (by decide)

/-- C5: place-type classification is evaluated in order with the first match
winning: amenity value verbatim, then shop as commercial, then building
(residence for house, residential or apartments, building otherwise), then
highway as road, and unknown when nothing matches. -/
theorem classify_first_match (address : List (String × String)) :
    (∀ v, address.lookup "amenity" = some v → classify_place_type address = v) ∧
    (address.lookup "amenity" = none →
      ∀ v, address.lookup "shop" = some v → classify_place_type address = "commercial") ∧
    (address.lookup "amenity" = none → address.lookup "shop" = none →
      ∀ b, address.lookup "building" = some b →
        classify_place_type address =
          (if b = "house" ∨ b = "residential" ∨ b = "apartments" then "residence"
           else "building")) ∧
    (address.lookup "amenity" = none → address.lookup "shop" = none →
      address.lookup "building" = none →
      ∀ v, address.lookup "highway" = some v → classify_place_type address = "road") ∧
    (address.lookup "amenity" = none → address.lookup "shop" = none →
      address.lookup "building" = none → address.lookup "highway" = none →
      classify_place_type address = "unknown") := by
  refine ⟨?_, ?_, ?_, ?_, ?_⟩
  · intro v hv
    unfold classify_place_type
    rw [hv]
  · intro ha v hv
    unfold classify_place_type
    rw [ha, hv]
  · intro ha hs b hb
    unfold classify_place_type
    rw [ha, hs, hb]
    simp [or_assoc]
  · intro ha hs hb v hv
    unfold classify_place_type
    rw [ha, hs, hb, hv]
  · intro ha hs hb hh
    unfold classify_place_type
    rw [ha, hs, hb, hh]

/-- Witness for C5 at the six concrete address shapes of the specification
examples. -/
theorem classify_first_match_witness :
    classify_place_type [("amenity", "cafe")] = "cafe" ∧
    classify_place_type [("shop", "bakery")] = "commercial" ∧
    classify_place_type [("building", "apartments")] = "residence" ∧
    classify_place_type [("building", "warehouse")] = "building" ∧
    classify_place_type [("highway", "residential")] = "road" ∧
    classify_place_type [] = "unknown" := by
  refine ⟨?_, ?_, ?_, ?_, ?_, ?_⟩
  · exact (classify_first_match _).1 "cafe" rfl
  · exact (classify_first_match _).2.1 rfl "bakery" rfl
  · simpa using (classify_first_match [("building", "apartments")]).2.2.1 rfl rfl
      "apartments" rfl
  · simpa using (classify_first_match [("building", "warehouse")]).2.2.1 rfl rfl
      "warehouse" rfl
  · exact (classify_first_match _).2.2.2.1 rfl rfl rfl "residential" rfl
  · exact (classify_first_match _).2.2.2.2 rfl rfl rfl rfl

def locCex : Location :=
  { address := "Main Street, Springfield"
  , raw := { name := some ""
           , display_name := some "Main Street, Springfield"
           , address := [("amenity", ""), ("shop", "bakery")] } }

/-- C6 counterexample: the raw name is empty, the amenity label is present
(with an empty value), yet the extracted name is the shop value: the Python
or-chain on line 193 treats an empty string as absent, so the claim, which
selects the first present sub-field, fails on this response. -/
theorem extract_name_present_empty_cex :
    locCex.raw.name = some "" ∧
    locCex.raw.address.lookup "amenity" = some "" ∧
    extract_name locCex = "bakery" ∧ "bakery" ≠ "" := by
  refine ⟨rfl, by decide, by decide, by decide⟩

/-- A sub-field counts for the amended C6 policy only when it is present
with a non-empty value. -/
def nonEmptyVal (v : Option String) : Option String :=
  v.bind (fun s => if s.isEmpty then none else some s)

/-- Amended C6 policy, stated independently of the source translation: the
explicit name unless missing, empty or all digits; otherwise the first of
amenity, shop, building, tourism that is present with a non-empty value;
otherwise the first comma-separated segment of the formatted display name. -/
def extractNamePolicy (loc : Location) : String :=
  let explicitName := loc.raw.name.getD ""
  if explicitName.isEmpty || strIsDigit explicitName then
    (Option.orElse (nonEmptyVal (loc.raw.address.lookup "amenity")) (fun _ =>
      Option.orElse (nonEmptyVal (loc.raw.address.lookup "shop")) (fun _ =>
        Option.orElse (nonEmptyVal (loc.raw.address.lookup "building")) (fun _ =>
          nonEmptyVal (loc.raw.address.lookup "tourism"))))).getD
      (firstCommaSegment (loc.raw.display_name.getD ""))
  else explicitName

/-- C6 (amended): the extracted display name follows the priority policy
with present-and-non-empty sub-fields (an empty-string label is skipped like
an absent one, because the source chains with Python `or`). -/
theorem extract_name_policy (loc : Location) :
    extract_name loc = extractNamePolicy loc := by
  unfold extract_name extractNamePolicy nonEmptyVal
  rw [pyOrS_eq, pyOrS_eq, pyOrS_eq, pyOrS_eq]
  rw [orElse_getD, orElse_getD, orElse_getD]

/-- C7: the proximity scan returns exactly the record of the first entry in
enumeration order whose key decodes to a point within the radius; entries
with undecodable keys are skipped silently, and the scan returns null when
no entry qualifies. -/
theorem find_nearby_first_within (ctx : GeoCtx) (radius : ℚ)
    (cache : List (String × PlaceEnrichment)) (lat lon : ℚ) :
    findCachedNearby ctx radius cache lat lon =
      ((cache.filter (withinRadius ctx radius lat lon)).head?).map Prod.snd := by
  induction cache with
  | nil => rfl
  | cons kv rest ih =>
    obtain ⟨key, e⟩ := kv
    cases hd : decodePoint ctx.parseFloat key with
    | none =>
      have hw : withinRadius ctx radius lat lon (key, e) = false := by
        simp [withinRadius, hd]
      simp [findCachedNearby, hd, List.filter, hw, ih]
    | some p =>
      by_cases hle : ctx.dist (lat, lon) p ≤ radius
      · have hw : withinRadius ctx radius lat lon (key, e) = true := by
          simp [withinRadius, hd, hle]
        simp [findCachedNearby, hd, hle, List.filter, hw]
      · have hw : withinRadius ctx radius lat lon (key, e) = false := by
          simp [withinRadius, hd, hle]
        simp [findCachedNearby, hd, hle, List.filter, hw, ih]

example :
    extract_name { address := "x"
                 , raw := { name := some "123", display_name := none
                          , address := [("amenity", "Joes Diner")] } } = "Joes Diner" := by
  decide

/-- C8: persisting any store with `save_cache` and reading the file back with
`load_cache` reproduces the store exactly, for every mix of null and
non-null optional fields, including a null `raw_data`. -/
theorem store_roundtrip (cache : List (String × PlaceEnrichment)) :
    loadCache (saveStore cache) = cache := by
  simp [loadCache, loadStore_saveStore cache]

example :
    loadCache (saveStore [("1.0000,2.0000", { name := some "a", raw_data := none }),
                          ("3.0000,4.0000", {})]) =
      [("1.0000,2.0000", { name := some "a", raw_data := none }), ("3.0000,4.0000", {})] := by
  decide

def handEditedStore : Json :=
  Json.obj [("home", Json.obj [("name", Json.str "Home")])]

def homeRec : PlaceEnrichment := { name := some "Home" }

/-- C9 counterexample: a well-formed persisted entry that simply omits
`place_type` loads successfully, and the resulting record in the store has a
null `place_type` instead of the claimed "unknown" default: the dataclass
default for every field, including `place_type`, is `None`. -/
theorem load_place_type_null_cex :
    loadCache handEditedStore = [("home", homeRec)] ∧
    homeRec.place_type = none := by
  exact ⟨by decide, rfl⟩

/-- C9 (amended): a record produced by a fresh successful enrichment always
carries a non-null `place_type`, equal to the classifier output, and in
particular "unknown" when no classification rule applies; records merely
loaded from persisted data keep whatever the data holds, so a missing or
null persisted `place_type` stays null (see the counterexample). -/
theorem fresh_enrichment_place_type (loc : Location) :
    (parseLocation loc).place_type = some (classify_place_type loc.raw.address) ∧
    (loc.raw.address.lookup "amenity" = none → loc.raw.address.lookup "shop" = none →
      loc.raw.address.lookup "building" = none → loc.raw.address.lookup "highway" = none →
      (parseLocation loc).place_type = some "unknown") := by
  refine ⟨rfl, ?_⟩
  intro h1 h2 h3 h4
  show some (classify_place_type loc.raw.address) = some "unknown"
  unfold classify_place_type
  rw [h1, h2, h3, h4]

def locUnknown : Location :=
  { address := "55 Nowhere Road"
  , raw := { name := some "Spot", display_name := none, address := [] } }

/-- Witness for the amended C9 at a location with no address labels. -/
theorem fresh_enrichment_place_type_witness :
    (parseLocation locUnknown).place_type = some "unknown" :=
  (fresh_enrichment_place_type locUnknown).2 rfl rfl rfl rfl

/-- C10: for every call that reaches the external geocoding step, a raising
geocoder leaves both the limiter timestamp and the cache unchanged, while a
geocoder that returns without raising (a location or a no-result response)
moves the limiter timestamp to the instant the call returned. -/
theorem geocode_limiter_update (ctx : GeoCtx) (cfg : EnrichConfig) (st : EnricherState)
    (lat lon : ℚ) (force : Bool) (now : ℚ) (geo : GeoOutcome) (dur : ℚ)
    (hcall : (enrich_place ctx cfg st lat lon force now geo dur).geocoderCalled = true) :
    (geo = GeoOutcome.raise →
      (enrich_place ctx cfg st lat lon force now geo dur).lastRequestTime =
          st.lastRequestTime ∧
      (enrich_place ctx cfg st lat lon force now geo dur).cache = st.cache) ∧
    (geo ≠ GeoOutcome.raise →
      (enrich_place ctx cfg st lat lon force now geo dur).lastRequestTime =
        issueAt cfg st now + dur) := by
  rw [enrich_eq_geocodeStep ctx cfg st lat lon force now geo dur hcall]
  constructor
  · intro h
    subst h
    exact ⟨rfl, rfl⟩
  · intro h
    exact geocodeStep_last_of_ne_raise cfg st (getCacheKey lat lon) now geo dur h

/-- Witness for C10: a no-result call against an empty cache updates the
limiter timestamp to the return time of the call. -/
theorem geocode_limiter_update_witness :
    (enrich_place ctx0 cfg0 (EnricherState.mk [] 0) (mkRat 1 1) (mkRat 2 1) false
        (mkRat 8 1) GeoOutcome.noResult (mkRat 2 1)).lastRequestTime =
      issueAt cfg0 (EnricherState.mk [] 0) (mkRat 8 1) + mkRat 2 1 :=
  (geocode_limiter_update ctx0 cfg0 (EnricherState.mk [] 0) (mkRat 1 1) (mkRat 2 1) false
      (mkRat 8 1) GeoOutcome.noResult (mkRat 2 1) (by decide)).2
    (by intro h; cases h)
